import Mathlib

/-!
Verification of the Jitsu Terraform provider's client core
(`internal/client`, file `util.go`, plus the workspace resource's
`Create` orchestration in `internal/resources/workspace.go`).

The Go code is shallowly embedded as pure Lean functions.  Network and
database effects are made explicit:

* an HTTP exchange is an element of `Fetch := Except String Resp` — the
  `error` case is a transport-level failure (`http.Client.Do` error or a
  body-read error), the `ok` case carries the status code, the raw body
  text, and the result of a generic `json.Unmarshal` of the body;
* the environment (`AuthEnv`, `ReqEnv`, `CreateEnv`, …) supplies the
  response for each HTTP exchange the code may perform, in program order;
* the Postgres side-channel used by the soft-delete reconciler is a
  `DBState` (lists of object and link rows) transformed by the exact
  `DELETE` statements the code issues, with injectable execution errors;
* every observable action (CSRF fetch, login POST, session invalidation,
  request send, purge invocation) is recorded in an event trace.

JSON bodies are modelled as an abstract `JVal` tree; `Resp.json` is the
result of `json.Unmarshal` on the body (`none` = unparseable).  JSON
objects are modelled with distinct keys, so `List.lookup` models Go map
indexing.  `url.PathEscape` is modelled as the identity: every claim
treats URLs as opaque strings and none depends on percent-escaping.
-/

namespace Jitsu

/-- Abstract JSON value (result of a generic `json.Unmarshal`). -/
inductive JVal where
  | jnull
  | jbool (b : Bool)
  | jnum (n : Int)
  | jstr (s : String)
  | jarr (elems : List JVal)
  | jobj (fields : List (String × JVal))

/-- A JSON object, as unmarshalled into a Go map (distinct keys assumed). -/
abbrev JObj := List (String × JVal)

/-- `pat` matches at the head of `s` (character-level; the Go code only
compares byte strings that are ASCII, where byte- and char-level agree). -/
def startsWith : List Char → List Char → Bool
  | [], _ => true
  | _ :: _, [] => false
  | p :: ps, c :: cs => p == c && startsWith ps cs

/-- `pat` occurs somewhere inside the second list. -/
def hasSub (pat : List Char) : List Char → Bool
  | [] => startsWith pat []
  | c :: cs => startsWith pat (c :: cs) || hasSub pat cs

/-- Model of Go `strings.Contains s pat`. -/
def containsSubstr (s pat : String) : Bool := hasSub pat.data s.data

/-- Go map indexing `m[k]` on an unmarshalled JSON object. -/
def jLookup (fs : JObj) (k : String) : Option JVal := fs.lookup k

/-- Go `v, ok := m[k].(string)`: `some s` iff the key is present with a
JSON string value. -/
def lookupString (fs : JObj) (k : String) : Option String :=
  match jLookup fs k with
  | some (.jstr s) => some s
  | _ => none

/-- Go `id, _ := m[k].(string)`: the string value, or `""` when absent or
not a string (the type assertion's zero value). -/
def lookupStringOrEmpty (fs : JObj) (k : String) : String :=
  (lookupString fs k).getD ""

/-- Go `deleted, ok := m["deleted"].(bool); ok && deleted`. -/
def deletedTrue (fs : JObj) : Bool :=
  match jLookup fs "deleted" with
  | some (.jbool b) => b
  | _ => false

/-- Go `json.Unmarshal(body, &m)` for `m : map[string]…`: fails unless the
body is a JSON object (or `null`, which leaves the map `nil` — modelled as
the empty object, which Go map indexing treats identically). -/
def unmarshalMap : Option JVal → Option JObj
  | some (.jobj fs) => some fs
  | some .jnull => some []
  | _ => none

/-- One element of a `[]map[string]interface` target: must be an object
(`null` yields a `nil` map, modelled as empty). -/
def itemAsMap : JVal → Option JObj
  | .jobj fs => some fs
  | .jnull => some []
  | _ => none

/-- Decode every element of a JSON array as an object; fail if any
element is neither an object nor `null`. -/
def itemsAsMaps : List JVal → Option (List JObj)
  | [] => some []
  | x :: xs =>
    match itemAsMap x, itemsAsMaps xs with
    | some fs, some rest => some (fs :: rest)
    | _, _ => none

/-- Go `json.Unmarshal(items, &result)` for `result : []map[string]…`. -/
def decodeItems : JVal → Option (List JObj)
  | .jarr xs => itemsAsMaps xs
  | .jnull => some []
  | _ => none

/-- Go `json.Unmarshal` of the CSRF response into
`struct \x7b Token string `json:"csrfToken"` \x7d`: a missing or `null`
field leaves the zero value `""`; a non-string field or a non-object body
is an unmarshal error. -/
def parseCsrfToken : Option JVal → Option String
  | some (.jobj fs) =>
    match fs.lookup "csrfToken" with
    | none => some ""
    | some (.jstr s) => some s
    | some .jnull => some ""
    | some _ => none
  | some .jnull => some ""
  | _ => none

/-- An HTTP response as observed by the client: status code, raw body
text, and the generic unmarshal of the body (`none` = invalid JSON). -/
structure Resp where
  status : Nat
  text : String
  json : Option JVal

/-- Outcome of one HTTP exchange: transport/read error or a response. -/
abbrev Fetch := Except String Resp

/-- Observable actions of the client, in program order. -/
inductive Event where
  | csrfFetch
  | loginPost
  | invalidate
  | sendReq (method url : String) (body : Option JVal)
  | purge (id table : String)

def Event.isPurge : Event → Bool
  | .purge _ _ => true
  | _ => false

def Event.isInvalidate : Event → Bool
  | .invalidate => true
  | _ => false

def Event.isSend : Event → Bool
  | .sendReq _ _ _ => true
  | _ => false

/-- Errors, one constructor per `fmt.Errorf` site of `util.go` reached by
the claims; wrapped errors (`%w`) are carried as sub-terms. -/
inductive Err where
  | noAuthConfigured
  | requestingCsrf (msg : String)
  | csrfStatus (url : String) (status : Nat) (body : String)
  | parsingCsrf
  | emptyCsrfToken
  | loginRequest (msg : String)
  | loginStatus (url : String) (status : Nat) (body : String)
  | transport (msg : String)
  | reauth (status : Nat) (inner : Err)
  | apiError (method url : String) (status : Nat) (body : String)
  | dbNotConfigured
  | sqlOpen (msg : String)
  | cannotPurge (id : String) (inner : Err)
  | sqlDeleteLinks (id : String) (msg : String)
  | sqlDeleteRow (table id : String) (msg : String)
  | noIdInPayload (endpoint : String)
  | createCleanup (inner : Err)
  | unmarshalBody
  | noItemsKey
  | decodeItemsFailed
  | workspaceFk (body : String)
  | noWorkspaceId (endpoint : String)
deriving DecidableEq

/-- Go `%q` on the strings that occur here (no escaping needed). -/
def quoteStr (s : String) : String := "\"" ++ s ++ "\""

/-- The `getDB` error text from `util.go`. -/
def dbNotConfiguredMsg : String :=
  "database_url not configured in provider; Jitsu uses soft-delete, so re-creating objects with the same ID requires database_url to hard-delete stale rows"

/-- Rendering of each error as the `fmt.Errorf` format string in `util.go`
produces it (wrapped errors rendered recursively, as `%w` does). -/
def Err.message : Err → String
  | .noAuthConfigured => "no authentication configured: set username/password"
  | .requestingCsrf m => "requesting CSRF token: " ++ m
  | .csrfStatus u st b => "GET " ++ u ++ " returned " ++ toString st ++ ": " ++ b
  | .parsingCsrf => "parsing CSRF response"
  | .emptyCsrfToken => "empty CSRF token in response"
  | .loginRequest m => "executing login request: " ++ m
  | .loginStatus u st b => "POST " ++ u ++ " returned " ++ toString st ++ ": " ++ b
  | .transport m => "executing request: " ++ m
  | .reauth st inner => "re-authenticating after " ++ toString st ++ " response: " ++ inner.message
  | .apiError m u st b => m ++ " " ++ u ++ " returned " ++ toString st ++ ": " ++ b
  | .dbNotConfigured => dbNotConfiguredMsg
  | .sqlOpen m => m
  | .cannotPurge id inner => "cannot purge soft-deleted " ++ quoteStr id ++ ": " ++ inner.message
  | .sqlDeleteLinks id m => "hard-deleting referencing links for " ++ quoteStr id ++ ": " ++ m
  | .sqlDeleteRow table id m => "hard-deleting soft-deleted " ++ table ++ " " ++ quoteStr id ++ ": " ++ m
  | .noIdInPayload ep => "POST " ++ ep ++ " returned soft-delete conflict but payload has no id field"
  | .createCleanup inner => "POST failed (soft-delete conflict) and cleanup failed: " ++ inner.message
  | .unmarshalBody => "unmarshaling response"
  | .noItemsKey => "unexpected response format: no objects or links key"
  | .decodeItemsFailed => "unmarshaling items"
  | .workspaceFk b => "workspace creation failed due to missing/invalid user session context: " ++ b
  | .noWorkspaceId ep => "POST " ++ ep ++ " did not return workspace id"

/-- The client (`client.Client`): configuration fields plus the mutable
`authenticated` flag.  `consoleURL` is stored already right-trimmed of `/`
(done in `New`).  The lazy DB pool is represented by `databaseURL`
presence plus the per-run `DbEnv`. -/
structure Client where
  consoleURL : String
  username : String
  password : String
  databaseURL : String
  authenticated : Bool

def Client.csrfURL (c : Client) : String := c.consoleURL ++ "/api/auth/csrf"

def Client.loginURL (c : Client) : String := c.consoleURL ++ "/api/auth/callback/credentials"

def Client.configURL (c : Client) (workspaceID resourceType : String) : String :=
  c.consoleURL ++ "/api/" ++ workspaceID ++ "/config/" ++ resourceType

def Client.configItemURL (c : Client) (workspaceID resourceType id : String) : String :=
  c.consoleURL ++ "/api/" ++ workspaceID ++ "/config/" ++ resourceType ++ "/" ++ id

def Client.workspaceURL (c : Client) : String := c.consoleURL ++ "/api/workspace"

def Client.workspaceItemURL (c : Client) (idOrSlug : String) : String :=
  c.consoleURL ++ "/api/workspace/" ++ idOrSlug

/-- Responses for the two HTTP exchanges `authenticate` may perform. -/
structure AuthEnv where
  csrf : Fetch
  login : Fetch

/-- `Client.authenticate` from `util.go`: credential check, short-circuit
on the `authenticated` flag, CSRF token fetch (must be 2xx, non-empty
token), then the credential POST (success = any status in `[200,400)`,
since NextAuth answers a redirect).  Returns the result, the updated
client, and the trace of actions performed. -/
def Client.authenticate (c : Client) (env : AuthEnv) :
    Except Err Unit × Client × List Event :=
  if c.username = "" ∨ c.password = "" then (.error .noAuthConfigured, c, [])
  else if c.authenticated then (.ok (), c, [])
  else
    match env.csrf with
    | .error e => (.error (.requestingCsrf e), c, [.csrfFetch])
    | .ok r =>
      if r.status < 200 ∨ 300 ≤ r.status then
        (.error (.csrfStatus c.csrfURL r.status r.text), c, [.csrfFetch])
      else
        match parseCsrfToken r.json with
        | none => (.error .parsingCsrf, c, [.csrfFetch])
        | some tok =>
          if tok = "" then (.error .emptyCsrfToken, c, [.csrfFetch])
          else
            match env.login with
            | .error e => (.error (.loginRequest e), c, [.csrfFetch, .loginPost])
            | .ok lr =>
              if lr.status < 200 ∨ 400 ≤ lr.status then
                (.error (.loginStatus c.loginURL lr.status lr.text), c,
                  [.csrfFetch, .loginPost])
              else (.ok (), { c with authenticated := true }, [.csrfFetch, .loginPost])

/-- `isAuthFailureStatus` from `util.go`. -/
def isAuthFailureStatus (status : Nat) : Bool := status == 401 || status == 403

/-- Responses for the HTTP exchanges one `doRequest` call may perform:
the initial `authenticate`, the first send, and — only on a 401/403 —
the re-`authenticate` and the single re-send. -/
structure ReqEnv where
  auth1 : AuthEnv
  send1 : Fetch
  auth2 : AuthEnv
  send2 : Fetch

/-- `Client.doRequest` from `util.go`: authenticate, send once; on a
401/403 response mark the session unauthenticated, re-authenticate, and
re-send exactly once, surfacing whatever the second send returns. -/
def Client.doRequest (c : Client) (env : ReqEnv) (method requestURL : String)
    (body : Option JVal) : Except Err Resp × Client × List Event :=
  match Client.authenticate c env.auth1 with
  | (.error e, c1, t1) => (.error e, c1, t1)
  | (.ok _, c1, t1) =>
    match env.send1 with
    | .error e => (.error (.transport e), c1, t1 ++ [.sendReq method requestURL body])
    | .ok r1 =>
      if isAuthFailureStatus r1.status then
        match Client.authenticate { c1 with authenticated := false } env.auth2 with
        | (.error e, c3, t2) =>
          (.error (.reauth r1.status e), c3,
            t1 ++ [.sendReq method requestURL body, .invalidate] ++ t2)
        | (.ok _, c3, t2) =>
          match env.send2 with
          | .error e =>
            (.error (.transport e), c3,
              t1 ++ [.sendReq method requestURL body, .invalidate] ++ t2
                ++ [.sendReq method requestURL body])
          | .ok r2 =>
            (.ok r2, c3,
              t1 ++ [.sendReq method requestURL body, .invalidate] ++ t2
                ++ [.sendReq method requestURL body])
      else (.ok r1, c1, t1 ++ [.sendReq method requestURL body])

/-- A row of `newjitsu."ConfigurationObject"` (only the columns the
reconciler's statements touch). -/
structure ObjRow where
  id : String
  deleted : Bool
deriving DecidableEq

/-- A row of `newjitsu."ConfigurationObjectLink"`. -/
structure LinkRow where
  id : String
  fromId : String
  toId : String
  deleted : Bool
deriving DecidableEq

/-- The backing store the reconciler reaches into. -/
structure DBState where
  objects : List ObjRow
  links : List LinkRow
deriving DecidableEq

/-- The two DELETE statements `hardDeleteSoftDeleted` can issue. -/
inductive SqlStmt where
  | deleteLinksReferencing (id : String)
  | deleteById (table : String) (id : String)
deriving DecidableEq

/-- Semantics of each statement on the store.  `deleteLinksReferencing`
is `DELETE FROM "ConfigurationObjectLink" WHERE deleted = true AND
(fromId = $1 OR toId = $1)`; `deleteById t` is `DELETE FROM t WHERE
id = $1 AND deleted = true`. -/
def execStmt (db : DBState) : SqlStmt → DBState
  | .deleteLinksReferencing id =>
    { db with links :=
        db.links.filter (fun r => !(r.deleted && (r.fromId == id || r.toId == id))) }
  | .deleteById table id =>
    if table = "ConfigurationObject" then
      { db with objects := db.objects.filter (fun r => !(r.id == id && r.deleted)) }
    else if table = "ConfigurationObjectLink" then
      { db with links := db.links.filter (fun r => !(r.id == id && r.deleted)) }
    else db

/-- Injectable failures of the DB side-channel: `sql.Open` and the two
`ExecContext` calls. -/
structure DbEnv where
  openErr : Option String
  linkDelErr : Option String
  rowDelErr : Option String

/-- `Client.getDB` from `util.go`: fails when no `database_url` was
configured, else reflects the (cached) `sql.Open` outcome. -/
def Client.getDB (c : Client) (denv : DbEnv) : Except Err Unit :=
  if c.databaseURL = "" then .error .dbNotConfigured
  else
    match denv.openErr with
    | some e => .error (.sqlOpen e)
    | none => .ok ()

/-- `Client.hardDeleteSoftDeleted` from `util.go`: acquire the DB handle;
for the `ConfigurationObject` table first delete soft-deleted links
referencing the id, then delete the soft-deleted row by id.  Returns the
result, the resulting store, and the list of statements issued. -/
def Client.hardDeleteSoftDeleted (c : Client) (denv : DbEnv) (db : DBState)
    (id table : String) : Except Err Unit × DBState × List SqlStmt :=
  match c.getDB denv with
  | .error e => (.error (.cannotPurge id e), db, [])
  | .ok _ =>
    if table = "ConfigurationObject" then
      match denv.linkDelErr with
      | some e => (.error (.sqlDeleteLinks id e), db, [.deleteLinksReferencing id])
      | none =>
        match denv.rowDelErr with
        | some e =>
          (.error (.sqlDeleteRow table id e), execStmt db (.deleteLinksReferencing id),
            [.deleteLinksReferencing id, .deleteById table id])
        | none =>
          (.ok (), execStmt (execStmt db (.deleteLinksReferencing id)) (.deleteById table id),
            [.deleteLinksReferencing id, .deleteById table id])
    else
      match denv.rowDelErr with
      | some e => (.error (.sqlDeleteRow table id e), db, [.deleteById table id])
      | none => (.ok (), execStmt db (.deleteById table id), [.deleteById table id])

/-- The soft-delete conflict signature checked by `Client.Create`. -/
def softDeleteConflict (r : Resp) : Bool :=
  r.status == 500 && containsSubstr r.text "Unique constraint failed"

/-- The storage-table choice made inline in `Client.Create`. -/
def storageTable (resourceType : String) : String :=
  if resourceType = "link" then "ConfigurationObjectLink" else "ConfigurationObject"

/-- Responses for the HTTP / DB exchanges one `Client.Create` may perform. -/
structure CreateEnv where
  req1 : ReqEnv
  dbe : DbEnv
  req2 : ReqEnv

/-- The status check and body unmarshal shared by both exits of
`Client.Create` (the code after the conflict-recovery block). -/
def finishCreate (endpoint : String) (r : Resp) (c : Client) (db : DBState)
    (t : List Event) : Except Err JObj × Client × DBState × List Event :=
  if r.status < 200 ∨ 300 ≤ r.status then
    (.error (.apiError "POST" endpoint r.status r.text), c, db, t)
  else
    match unmarshalMap r.json with
    | none => (.error .unmarshalBody, c, db, t)
    | some fs => (.ok fs, c, db, t)

/-- `Client.Create` from `util.go`: POST; on a 500 response whose body
contains the unique-constraint signature, take `id` from the payload,
purge the soft-deleted row in the storage table for the type, and retry
the POST once; then the shared non-2xx check and unmarshal. -/
def Client.create (c : Client) (env : CreateEnv) (db : DBState)
    (workspaceID resourceType : String) (payload : JObj) :
    Except Err JObj × Client × DBState × List Event :=
  let endpoint := c.configURL workspaceID resourceType
  match c.doRequest env.req1 "POST" endpoint (some (.jobj payload)) with
  | (.error e, c1, t1) => (.error e, c1, db, t1)
  | (.ok r1, c1, t1) =>
    if softDeleteConflict r1 then
      match lookupString payload "id" with
      | none => (.error (.noIdInPayload endpoint), c1, db, t1)
      | some id =>
        if id = "" then (.error (.noIdInPayload endpoint), c1, db, t1)
        else
          let table := storageTable resourceType
          match c1.hardDeleteSoftDeleted env.dbe db id table with
          | (.error e, db1, _) =>
            (.error (.createCleanup e), c1, db1, t1 ++ [.purge id table])
          | (.ok _, db1, _) =>
            match c1.doRequest env.req2 "POST" endpoint (some (.jobj payload)) with
            | (.error e, c2, t2) => (.error e, c2, db1, t1 ++ [.purge id table] ++ t2)
            | (.ok r2, c2, t2) =>
              finishCreate endpoint r2 c2 db1 (t1 ++ [.purge id table] ++ t2)
    else finishCreate endpoint r1 c1 db t1

/-- `Client.Read` from `util.go`: GET; 404 maps to `none`; other non-2xx
is fatal; a 2xx body with `deleted=true` also maps to `none`. -/
def Client.read (c : Client) (env : ReqEnv) (workspaceID resourceType id : String) :
    Except Err (Option JObj) × Client × List Event :=
  let endpoint := c.configItemURL workspaceID resourceType id
  match c.doRequest env "GET" endpoint none with
  | (.error e, c1, t1) => (.error e, c1, t1)
  | (.ok r, c1, t1) =>
    if r.status = 404 then (.ok none, c1, t1)
    else if r.status < 200 ∨ 300 ≤ r.status then
      (.error (.apiError "GET" endpoint r.status r.text), c1, t1)
    else
      match unmarshalMap r.json with
      | none => (.error .unmarshalBody, c1, t1)
      | some fs => if deletedTrue fs then (.ok none, c1, t1) else (.ok (some fs), c1, t1)

/-- `Client.Delete` from `util.go`: DELETE; every non-2xx status,
including 404, is fatal. -/
def Client.delete (c : Client) (env : ReqEnv) (workspaceID resourceType id : String) :
    Except Err Unit × Client × List Event :=
  let endpoint := c.configItemURL workspaceID resourceType id
  match c.doRequest env "DELETE" endpoint none with
  | (.error e, c1, t1) => (.error e, c1, t1)
  | (.ok r, c1, t1) =>
    if r.status < 200 ∨ 300 ≤ r.status then
      (.error (.apiError "DELETE" endpoint r.status r.text), c1, t1)
    else (.ok (), c1, t1)

/-- `Client.List` from `util.go`: GET the collection; unwrap the items
from the `links` key (checked first) or the `objects` key, failing when
neither is present; decode the items as a list of objects. -/
def Client.list (c : Client) (env : ReqEnv) (workspaceID resourceType : String) :
    Except Err (List JObj) × Client × List Event :=
  let endpoint := c.configURL workspaceID resourceType
  match c.doRequest env "GET" endpoint none with
  | (.error e, c1, t1) => (.error e, c1, t1)
  | (.ok r, c1, t1) =>
    if r.status < 200 ∨ 300 ≤ r.status then
      (.error (.apiError "GET" endpoint r.status r.text), c1, t1)
    else
      match unmarshalMap r.json with
      | none => (.error .unmarshalBody, c1, t1)
      | some wrapper =>
        match jLookup wrapper "links" with
        | some raw =>
          match decodeItems raw with
          | none => (.error .decodeItemsFailed, c1, t1)
          | some items => (.ok items, c1, t1)
        | none =>
          match jLookup wrapper "objects" with
          | some raw =>
            match decodeItems raw with
            | none => (.error .decodeItemsFailed, c1, t1)
            | some items => (.ok items, c1, t1)
          | none => (.error .noItemsKey, c1, t1)

/-- `Client.WorkspaceCreate` from `util.go`: POST name/slug; a 500 whose
body names the `WorkspaceAccess_userId_fkey` constraint gets a dedicated
error, any other non-2xx is fatal; the response must carry a non-empty
string `id`. -/
def Client.workspaceCreate (c : Client) (env : ReqEnv) (name slug : String) :
    Except Err String × Client × List Event :=
  let endpoint := c.workspaceURL
  let payload : JObj := [("name", .jstr name), ("slug", .jstr slug)]
  match c.doRequest env "POST" endpoint (some (.jobj payload)) with
  | (.error e, c1, t1) => (.error e, c1, t1)
  | (.ok r, c1, t1) =>
    if r.status < 200 ∨ 300 ≤ r.status then
      if r.status = 500 ∧ containsSubstr r.text "WorkspaceAccess_userId_fkey" then
        (.error (.workspaceFk r.text), c1, t1)
      else (.error (.apiError "POST" endpoint r.status r.text), c1, t1)
    else
      match unmarshalMap r.json with
      | none => (.error .unmarshalBody, c1, t1)
      | some fs =>
        let id := lookupStringOrEmpty fs "id"
        if id = "" then (.error (.noWorkspaceId endpoint), c1, t1)
        else (.ok id, c1, t1)

/-- `Client.WorkspaceUpdate` from `util.go`: PUT name/slug to the item
endpoint; any non-2xx is fatal. -/
def Client.workspaceUpdate (c : Client) (env : ReqEnv) (idOrSlug name slug : String) :
    Except Err JObj × Client × List Event :=
  let endpoint := c.workspaceItemURL idOrSlug
  let payload : JObj := [("name", .jstr name), ("slug", .jstr slug)]
  match c.doRequest env "PUT" endpoint (some (.jobj payload)) with
  | (.error e, c1, t1) => (.error e, c1, t1)
  | (.ok r, c1, t1) =>
    if r.status < 200 ∨ 300 ≤ r.status then
      (.error (.apiError "PUT" endpoint r.status r.text), c1, t1)
    else
      match unmarshalMap r.json with
      | none => (.error .unmarshalBody, c1, t1)
      | some fs => (.ok fs, c1, t1)

/-- `Client.WorkspaceDelete` from `util.go`: DELETE with a
`workspaceId` body; a 404 response is success, any other non-2xx is
fatal. -/
def Client.workspaceDelete (c : Client) (env : ReqEnv) (workspaceID : String) :
    Except Err Unit × Client × List Event :=
  let endpoint := c.workspaceURL
  match c.doRequest env "DELETE" endpoint (some (.jobj [("workspaceId", .jstr workspaceID)])) with
  | (.error e, c1, t1) => (.error e, c1, t1)
  | (.ok r, c1, t1) =>
    if r.status = 404 then (.ok (), c1, t1)
    else if r.status < 200 ∨ 300 ≤ r.status then
      (.error (.apiError "DELETE" endpoint r.status r.text), c1, t1)
    else (.ok (), c1, t1)

/-- Responses for the three client calls `workspaceResource.Create` may
perform. -/
structure WsCreateEnv where
  createReq : ReqEnv
  updateReq : ReqEnv
  deleteReq : ReqEnv

/-- Outcome of `workspaceResource.Create` (workspace resource file):
either Terraform state is set, or one of the three diagnostics is
raised — the two finalize diagnostics carry the original update error and
the rollback outcome, exactly as the two `fmt.Sprintf` branches do. -/
inductive WsCreateOutcome where
  | created (id name slug : String)
  | createError (e : Err)
  | rolledBack (updateErr : Err) (id : String)
  | rollbackFailed (updateErr : Err) (id : String) (rollbackErr : Err)
deriving DecidableEq

/-- `workspaceResource.Create`: create the workspace, then immediately
update it re-asserting the same name/slug (the Console may persist `slug`
as null on create); if the update fails, best-effort delete the
just-created workspace and report the original error together with the
rollback outcome; state is set only on full success. -/
def workspaceResourceCreate (c : Client) (env : WsCreateEnv) (name slug : String) :
    WsCreateOutcome × Client × List Event :=
  match c.workspaceCreate env.createReq name slug with
  | (.error e, c1, t1) => (.createError e, c1, t1)
  | (.ok id, c1, t1) =>
    match c1.workspaceUpdate env.updateReq id name slug with
    | (.ok _, c2, t2) => (.created id name slug, c2, t1 ++ t2)
    | (.error e, c2, t2) =>
      match c2.workspaceDelete env.deleteReq id with
      | (.ok _, c3, t3) => (.rolledBack e id, c3, t1 ++ t2 ++ t3)
      | (.error rb, c3, t3) => (.rollbackFailed e id rb, c3, t1 ++ t2 ++ t3)

/-! Concrete fixtures on which the theorems are evaluated. -/

/-- A fully configured client whose session is already established. -/
def cW : Client :=
  { consoleURL := "http://c", username := "u", password := "p",
    databaseURL := "postgres://db", authenticated := true }

/-- The same client before any authentication. -/
def cUn : Client := { cW with authenticated := false }

/-- The same client with no `database_url` configured. -/
def cNoDb : Client := { cW with databaseURL := "" }

def goodCsrfResp : Resp :=
  { status := 200, text := "csrf-body", json := some (.jobj [("csrfToken", .jstr "t")]) }

def goodLoginResp : Resp := { status := 302, text := "", json := none }

/-- An authentication environment whose exchange succeeds. -/
def goodAuthEnv : AuthEnv := { csrf := .ok goodCsrfResp, login := .ok goodLoginResp }

/-- A request environment answering every send with `r` and every
authentication exchange successfully. -/
def okSendEnv (r : Resp) : ReqEnv :=
  { auth1 := goodAuthEnv, send1 := .ok r, auth2 := goodAuthEnv, send2 := .ok r }

/-- A database side-channel with no injected failures. -/
def dbeOk : DbEnv := { openErr := none, linkDelErr := none, rowDelErr := none }

/-- A store with one soft-deleted object (`obj1`), one active object, one
soft-deleted link referencing `obj1`, and one active link referencing it. -/
def dbW : DBState :=
  { objects := [{ id := "obj1", deleted := true }, { id := "keep", deleted := false }],
    links := [{ id := "l1", fromId := "obj1", toId := "z", deleted := true },
              { id := "l2", fromId := "obj1", toId := "z", deleted := false }] }

/-- `dbW` after purging `obj1`: the soft-deleted object and its
soft-deleted link are gone, both active rows survive. -/
def dbWPurged : DBState :=
  { objects := [{ id := "keep", deleted := false }],
    links := [{ id := "l2", fromId := "obj1", toId := "z", deleted := false }] }

def respConflict : Resp :=
  { status := 500, text := "error: Unique constraint failed on fields", json := none }

def payloadC1 : JObj := [("id", .jstr "obj1"), ("type", .jstr "stream")]

/-- A create run whose POST hits the soft-delete conflict both times. -/
def envC1 : CreateEnv :=
  { req1 := okSendEnv respConflict, dbe := dbeOk, req2 := okSendEnv respConflict }

def resp401 : Resp := { status := 401, text := "", json := none }

def resp403 : Resp := { status := 403, text := "denied", json := none }

/-- An executor run whose first send expires the session and whose
re-sent request is denied again. -/
def envC3 : ReqEnv :=
  { auth1 := goodAuthEnv, send1 := .ok resp401, auth2 := goodAuthEnv, send2 := .ok resp403 }

def resp404 : Resp := { status := 404, text := "nf", json := none }

def respDeleted : Resp :=
  { status := 200, text := "", json := some (.jobj [("deleted", .jbool true)]) }

def respLinks : Resp :=
  { status := 200, text := "",
    json := some (.jobj [("links", .jarr [.jobj [("id", .jstr "l1")]])]) }

def respNoKey : Resp :=
  { status := 200, text := "", json := some (.jobj [("data", .jarr [])]) }

def respWsCreated : Resp :=
  { status := 200, text := "", json := some (.jobj [("id", .jstr "w1")]) }

def respWsFail : Resp := { status := 500, text := "boom", json := none }

def respOk200 : Resp := { status := 200, text := "", json := none }

/-- A workspace-resource create run: POST succeeds, the slug-reasserting
update fails, the rollback delete succeeds. -/
def envWs : WsCreateEnv :=
  { createReq := okSendEnv respWsCreated, updateReq := okSendEnv respWsFail,
    deleteReq := okSendEnv respOk200 }

/-- The update error the `envWs` run produces. -/
def errPut : Err := .apiError "PUT" (cW.workspaceItemURL "w1") 500 "boom"

/-- An authentication environment whose token fetch succeeds but whose
credential POST dies at the transport level. -/
def envC8 : AuthEnv := { csrf := .ok goodCsrfResp, login := .error "connection refused" }

/-! Helper lemmas about the session manager and the executor. -/

theorem authenticate_ok_state (c c1 : Client) (e : AuthEnv) (u : Unit) (t : List Event)
    (h : Client.authenticate c e = (.ok u, c1, t)) :
    c1.authenticated = true ∧ c1.username = c.username ∧ c1.password = c.password := by
  unfold Client.authenticate at h
  split at h
  · simp at h
  · split at h
    · simp only [Prod.mk.injEq] at h
      obtain ⟨-, h2, -⟩ := h
      rename_i hauth
      subst h2
      exact ⟨hauth, rfl, rfl⟩
    · split at h
      · simp at h
      · split at h
        · simp at h
        · split at h
          · simp at h
          · split at h
            · simp at h
            · split at h
              · simp at h
              · split at h
                · simp at h
                · simp only [Prod.mk.injEq] at h
                  obtain ⟨-, h2, -⟩ := h
                  subst h2
                  exact ⟨rfl, rfl, rfl⟩

theorem authenticate_not_authed_ok_trace (c c1 : Client) (e : AuthEnv) (u : Unit)
    (t : List Event) (hna : c.authenticated = false)
    (h : Client.authenticate c e = (.ok u, c1, t)) :
    t = [.csrfFetch, .loginPost] ∧ c1 = { c with authenticated := true } := by
  unfold Client.authenticate at h
  split at h
  · simp at h
  · split at h
    · rename_i hauth
      rw [hna] at hauth
      exact absurd hauth (by simp)
    · split at h
      · simp at h
      · split at h
        · simp at h
        · split at h
          · simp at h
          · split at h
            · simp at h
            · split at h
              · simp at h
              · split at h
                · simp at h
                · simp only [Prod.mk.injEq] at h
                  obtain ⟨-, h2, h3⟩ := h
                  exact ⟨h3.symm, h2.symm⟩

theorem authenticate_already_ok (c : Client) (e : AuthEnv)
    (hu : ¬ c.username = "") (hp : ¬ c.password = "") (ha : c.authenticated = true) :
    Client.authenticate c e = (.ok (), c, []) := by
  unfold Client.authenticate
  rw [if_neg (by simp [hu, hp]), if_pos ha]

theorem authenticate_countP_purge (c : Client) (e : AuthEnv) :
    ((Client.authenticate c e).2.2).countP Event.isPurge = 0 := by
  unfold Client.authenticate
  repeat' split
  all_goals rfl

theorem doRequest_countP_purge (c : Client) (env : ReqEnv) (m u : String)
    (b : Option JVal) : ((c.doRequest env m u b).2.2).countP Event.isPurge = 0 := by
  have h1 := authenticate_countP_purge c env.auth1
  unfold Client.doRequest
  rcases ha1 : Client.authenticate c env.auth1 with ⟨res1, c1, t1⟩
  rw [ha1] at h1
  simp only at h1
  cases res1 with
  | error e => simpa using h1
  | ok v =>
    rcases hs1 : env.send1 with e | r1
    · simp [List.countP_append, h1, Event.isPurge]
    · simp only
      split
      · have h2 := authenticate_countP_purge { c1 with authenticated := false } env.auth2
        rcases ha2 : Client.authenticate { c1 with authenticated := false } env.auth2 with
          ⟨res2, c3, t2⟩
        rw [ha2] at h2
        simp only at h2
        cases res2 with
        | error e2 => simp [List.countP_append, h1, h2, Event.isPurge]
        | ok v2 =>
          rcases hs2 : env.send2 with e2 | r2 <;>
            simp [List.countP_append, h1, h2, Event.isPurge]
      · simp [List.countP_append, h1, Event.isPurge]

theorem hasSub_append_right (pat s t : List Char) (h : hasSub pat t = true) :
    hasSub pat (s ++ t) = true := by
  induction s with
  | nil => simpa using h
  | cons c cs ih =>
    simp only [List.cons_append, hasSub, Bool.or_eq_true]
    exact Or.inr ih

theorem finishCreate_trace (ep : String) (r : Resp) (c : Client) (db : DBState)
    (t : List Event) : (finishCreate ep r c db t).2.2.2 = t := by
  unfold finishCreate
  repeat' split
  all_goals rfl

theorem finishCreate_bad_status (ep : String) (r : Resp) (c : Client) (db : DBState)
    (t : List Event) (h : r.status < 200 ∨ 300 ≤ r.status) :
    (finishCreate ep r c db t).1 = .error (.apiError "POST" ep r.status r.text) := by
  unfold finishCreate
  rw [if_pos h]

/-! The claims. -/

/-- Claim C2: purging an object id issues exactly two DELETE statements —
the soft-deleted links referencing the id first, the soft-deleted object
row second — and every statement the reconciler can issue restricts its
predicate to `deleted = true`, so an active row always survives. -/
theorem hardDelete_object_cascade_order_safety
    (c : Client) (denv : DbEnv) (db : DBState) (id : String)
    (hurl : ¬ c.databaseURL = "") (hopen : denv.openErr = none)
    (hlink : denv.linkDelErr = none) (hrow : denv.rowDelErr = none) :
    c.hardDeleteSoftDeleted denv db id "ConfigurationObject" =
      (.ok (),
        execStmt (execStmt db (.deleteLinksReferencing id)) (.deleteById "ConfigurationObject" id),
        [.deleteLinksReferencing id, .deleteById "ConfigurationObject" id]) ∧
    (∀ s : SqlStmt, ∀ d : DBState,
      (∀ r ∈ d.objects, r.deleted = false → r ∈ (execStmt d s).objects) ∧
      (∀ l ∈ d.links, l.deleted = false → l ∈ (execStmt d s).links)) := by
  constructor
  · unfold Client.hardDeleteSoftDeleted Client.getDB
    rw [if_neg hurl, hopen]
    simp [hlink, hrow]
  · intro s d
    cases s with
    | deleteLinksReferencing i =>
      refine ⟨fun r hr _ => hr, fun l hl hdel => ?_⟩
      simp [execStmt, List.mem_filter, hl, hdel]
    | deleteById tbl i =>
      constructor
      · intro r hr hdel
        by_cases h1 : tbl = "ConfigurationObject"
        · simp [execStmt, h1, List.mem_filter, hr, hdel]
        · by_cases h2 : tbl = "ConfigurationObjectLink"
          · simp [execStmt, h1, h2, hr]
          · simp [execStmt, h1, h2, hr]
      · intro l hl hdel
        by_cases h1 : tbl = "ConfigurationObject"
        · simp [execStmt, h1, hl]
        · by_cases h2 : tbl = "ConfigurationObjectLink"
          · simp [execStmt, h1, h2, List.mem_filter, hl, hdel]
          · simp [execStmt, h1, h2, hl]

theorem hardDelete_object_cascade_order_safety_witness :
    cW.hardDeleteSoftDeleted dbeOk dbW "obj1" "ConfigurationObject" =
      (.ok (),
        execStmt (execStmt dbW (.deleteLinksReferencing "obj1"))
          (.deleteById "ConfigurationObject" "obj1"),
        [.deleteLinksReferencing "obj1", .deleteById "ConfigurationObject" "obj1"]) ∧
    execStmt (execStmt dbW (.deleteLinksReferencing "obj1"))
      (.deleteById "ConfigurationObject" "obj1") = dbWPurged :=
  ⟨(hardDelete_object_cascade_order_safety cW dbeOk dbW "obj1" (by decide) rfl rfl rfl).1,
    by decide⟩

/-- Claim C5: with no `database_url` configured, every purge attempt
returns an explicit error whose message names `database_url` and the need
to hard-delete stale rows, issues no database statement, and leaves the
store untouched. -/
theorem hardDelete_requires_database_url
    (c : Client) (denv : DbEnv) (db : DBState) (id table : String)
    (h : c.databaseURL = "") :
    c.hardDeleteSoftDeleted denv db id table =
      (.error (.cannotPurge id .dbNotConfigured), db, []) ∧
    containsSubstr (Err.message (.cannotPurge id .dbNotConfigured)) "database_url" = true ∧
    containsSubstr (Err.message (.cannotPurge id .dbNotConfigured)) "hard-delete stale rows" = true := by
  refine ⟨?_, ?_, ?_⟩
  · unfold Client.hardDeleteSoftDeleted Client.getDB
    rw [if_pos h]
  · show containsSubstr ("cannot purge soft-deleted " ++ quoteStr id ++ ": " ++ dbNotConfiguredMsg)
      "database_url" = true
    unfold containsSubstr
    rw [String.data_append]
    exact hasSub_append_right _ _ _ (by decide)
  · show containsSubstr ("cannot purge soft-deleted " ++ quoteStr id ++ ": " ++ dbNotConfiguredMsg)
      "hard-delete stale rows" = true
    unfold containsSubstr
    rw [String.data_append]
    exact hasSub_append_right _ _ _ (by decide)

theorem hardDelete_requires_database_url_witness :
    cNoDb.hardDeleteSoftDeleted dbeOk dbW "obj1" "ConfigurationObject" =
      (.error (.cannotPurge "obj1" .dbNotConfigured), dbW, []) ∧
    containsSubstr (Err.message (.cannotPurge "obj1" .dbNotConfigured)) "database_url" = true :=
  ⟨(hardDelete_requires_database_url cNoDb dbeOk dbW "obj1" "ConfigurationObject" rfl).1,
    (hardDelete_requires_database_url cNoDb dbeOk dbW "obj1" "ConfigurationObject" rfl).2.1⟩

/-- Claim C7: a second `authenticate` call right after a successful one
performs no credential exchange at all — it returns success immediately,
emits no events, and leaves the client unchanged. -/
theorem authenticate_idempotent (c c1 : Client) (e1 e2 : AuthEnv) (u : Unit)
    (t1 : List Event) (h : Client.authenticate c e1 = (.ok u, c1, t1)) :
    Client.authenticate c1 e2 = (.ok (), c1, []) := by
  obtain ⟨hauth, hun, hpw⟩ := authenticate_ok_state c c1 e1 u t1 h
  have hcred : ¬ (c.username = "" ∨ c.password = "") := by
    intro hc
    unfold Client.authenticate at h
    rw [if_pos hc] at h
    simp at h
  unfold Client.authenticate
  rw [hun, hpw, if_neg hcred, if_pos hauth]

theorem authenticate_idempotent_witness :
    Client.authenticate cW goodAuthEnv = (.ok (), cW, []) :=
  authenticate_idempotent cUn cW goodAuthEnv goodAuthEnv () [.csrfFetch, .loginPost] rfl

/-- Claim C3: for an authenticated session, a first 401/403 response
triggers exactly one invalidation, one re-authentication (one CSRF fetch
and one login POST) and one re-send, and the second response — whatever
its status, including another 401/403 — is surfaced with no further
retry; any other first status, including 5xx, is returned after a single
send with no invalidation and no retry. -/
theorem doRequest_single_reauth_retry
    (c : Client) (env : ReqEnv) (m u : String) (b : Option JVal)
    (hu : ¬ c.username = "") (hp : ¬ c.password = "") (ha : c.authenticated = true) :
    (∀ r1 c3 t2 v r2, env.send1 = .ok r1 → isAuthFailureStatus r1.status = true →
      Client.authenticate { c with authenticated := false } env.auth2 = (.ok v, c3, t2) →
      env.send2 = .ok r2 →
      c.doRequest env m u b =
        (.ok r2, c3,
          [.sendReq m u b, .invalidate, .csrfFetch, .loginPost, .sendReq m u b])) ∧
    (∀ r1, env.send1 = .ok r1 → isAuthFailureStatus r1.status = false →
      c.doRequest env m u b = (.ok r1, c, [.sendReq m u b])) := by
  have hinit := authenticate_already_ok c env.auth1 hu hp ha
  constructor
  · intro r1 c3 t2 v r2 hs1 hf hra hs2
    obtain ⟨ht2, -⟩ := authenticate_not_authed_ok_trace _ c3 env.auth2 v t2 rfl hra
    subst ht2
    simp [Client.doRequest, hinit, hs1, hf, hra, hs2]
  · intro r1 hs1 hnf
    simp [Client.doRequest, hinit, hs1, hnf]

theorem doRequest_single_reauth_retry_witness :
    cW.doRequest envC3 "GET" "http://c/x" none =
      (.ok resp403, cW,
        [.sendReq "GET" "http://c/x" none, .invalidate, .csrfFetch, .loginPost,
          .sendReq "GET" "http://c/x" none]) :=
  (doRequest_single_reauth_retry cW envC3 "GET" "http://c/x" none (by decide) (by decide)
    rfl).1 resp401 cW [.csrfFetch, .loginPost] () resp403 rfl rfl rfl rfl

/-- Claim C4: a 404 response and a 2xx response whose body carries
`deleted = true` yield the identical read result: `none` with no error. -/
theorem read_not_found_uniform
    (c c1 c2 : Client) (e1 e2 : ReqEnv) (ws ty id : String)
    (r1 r2 : Resp) (t1 t2 : List Event) (fs : JObj)
    (h1 : c.doRequest e1 "GET" (c.configItemURL ws ty id) none = (.ok r1, c1, t1))
    (h404 : r1.status = 404)
    (h2 : c.doRequest e2 "GET" (c.configItemURL ws ty id) none = (.ok r2, c2, t2))
    (hlo : 200 ≤ r2.status) (hhi : r2.status < 300)
    (hjson : unmarshalMap r2.json = some fs)
    (hdel : jLookup fs "deleted" = some (.jbool true)) :
    (c.read e1 ws ty id).1 = .ok none ∧
    (c.read e2 ws ty id).1 = .ok none ∧
    (c.read e1 ws ty id).1 = (c.read e2 ws ty id).1 := by
  have ha : (c.read e1 ws ty id).1 = .ok none := by
    simp [Client.read, h1, h404]
  have hb : (c.read e2 ws ty id).1 = .ok none := by
    have h404b : ¬ r2.status = 404 := by omega
    have hok : ¬ (r2.status < 200 ∨ 300 ≤ r2.status) := by omega
    simp [Client.read, h2, h404b, hok, hjson, deletedTrue, hdel]
  exact ⟨ha, hb, ha.trans hb.symm⟩

theorem read_not_found_uniform_witness :
    (cW.read (okSendEnv resp404) "ws" "stream" "obj1").1 = .ok none ∧
    (cW.read (okSendEnv respDeleted) "ws" "stream" "obj1").1 = .ok none :=
  ⟨(read_not_found_uniform cW cW cW (okSendEnv resp404) (okSendEnv respDeleted) "ws" "stream"
      "obj1" resp404 respDeleted _ _ [("deleted", .jbool true)] rfl rfl rfl (by decide)
      (by decide) rfl rfl).1,
    (read_not_found_uniform cW cW cW (okSendEnv resp404) (okSendEnv respDeleted) "ws" "stream"
      "obj1" resp404 respDeleted _ _ [("deleted", .jbool true)] rfl rfl rfl (by decide)
      (by decide) rfl rfl).2.1⟩

/-- Claim C9: on a 2xx response whose body is an object, the items are
extracted from under either the `links` key or the `objects` key and
returned as one sequence; when neither key exists the call fails with the
unexpected-format error. -/
theorem list_envelope_extraction
    (c c1 : Client) (env : ReqEnv) (ws ty : String) (r : Resp) (t : List Event) (w : JObj)
    (h : c.doRequest env "GET" (c.configURL ws ty) none = (.ok r, c1, t))
    (hlo : 200 ≤ r.status) (hhi : r.status < 300)
    (hw : unmarshalMap r.json = some w) :
    (∀ items fss, jLookup w "links" = some (.jarr items) →
      itemsAsMaps items = some fss → (c.list env ws ty).1 = .ok fss) ∧
    (∀ items fss, jLookup w "links" = none → jLookup w "objects" = some (.jarr items) →
      itemsAsMaps items = some fss → (c.list env ws ty).1 = .ok fss) ∧
    (jLookup w "links" = none → jLookup w "objects" = none →
      (c.list env ws ty).1 = .error .noItemsKey) := by
  have hok : ¬ (r.status < 200 ∨ 300 ≤ r.status) := by omega
  refine ⟨?_, ?_, ?_⟩
  · intro items fss hl hdec
    simp [Client.list, h, hok, hw, hl, decodeItems, hdec]
  · intro items fss hl ho hdec
    simp [Client.list, h, hok, hw, hl, ho, decodeItems, hdec]
  · intro hl ho
    simp [Client.list, h, hok, hw, hl, ho]

theorem list_envelope_extraction_witness :
    (cW.list (okSendEnv respLinks) "ws" "link").1 = .ok [[("id", JVal.jstr "l1")]] ∧
    (cW.list (okSendEnv respNoKey) "ws" "stream").1 = .error .noItemsKey :=
  ⟨(list_envelope_extraction cW cW (okSendEnv respLinks) "ws" "link" respLinks _
      [("links", .jarr [.jobj [("id", .jstr "l1")]])] rfl (by decide) (by decide) rfl).1
      [.jobj [("id", .jstr "l1")]] [[("id", .jstr "l1")]] rfl rfl,
    (list_envelope_extraction cW cW (okSendEnv respNoKey) "ws" "stream" respNoKey _
      [("data", .jarr [])] rfl (by decide) (by decide) rfl).2.2 rfl rfl⟩

/-- Claim C10: deleting a workspace tolerates a 404 (success, no error),
whereas configuration-object delete treats every non-2xx status —
404 included — as a fatal error carrying method, URL, status and body. -/
theorem workspace_delete_tolerates_404
    (c c1 c2 : Client) (e1 e2 : ReqEnv) (wsId ws ty id : String)
    (r1 r2 : Resp) (t1 t2 : List Event)
    (h1 : c.doRequest e1 "DELETE" c.workspaceURL
        (some (.jobj [("workspaceId", .jstr wsId)])) = (.ok r1, c1, t1))
    (h404 : r1.status = 404)
    (h2 : c.doRequest e2 "DELETE" (c.configItemURL ws ty id) none = (.ok r2, c2, t2))
    (hbad : r2.status < 200 ∨ 300 ≤ r2.status) :
    (c.workspaceDelete e1 wsId).1 = .ok () ∧
    (c.delete e2 ws ty id).1 =
      .error (.apiError "DELETE" (c.configItemURL ws ty id) r2.status r2.text) := by
  constructor
  · simp [Client.workspaceDelete, h1, h404]
  · simp [Client.delete, h2, hbad]

theorem workspace_delete_tolerates_404_witness :
    (cW.workspaceDelete (okSendEnv resp404) "w1").1 = .ok () ∧
    (cW.delete (okSendEnv resp404) "ws" "stream" "obj1").1 =
      .error (.apiError "DELETE" (cW.configItemURL "ws" "stream" "obj1") 404 "nf") :=
  ⟨(workspace_delete_tolerates_404 cW cW cW (okSendEnv resp404) (okSendEnv resp404) "w1"
      "ws" "stream" "obj1" resp404 resp404 _ _ rfl rfl rfl (by decide)).1,
    (workspace_delete_tolerates_404 cW cW cW (okSendEnv resp404) (okSendEnv resp404) "w1"
      "ws" "stream" "obj1" resp404 resp404 _ _ rfl rfl rfl (by decide)).2⟩

/-- Claim C1: a POST answered 500 with the unique-constraint signature
causes exactly one purge — of the payload's string `id`, in the storage
table selected by the type (`link` to the link table, every other type to
the object table) — and exactly one retry of the POST; a non-2xx answer
to the retried POST (a second conflict included) is surfaced as the
fatal API error carrying method, URL, status and response body, with no
second purge-and-retry cycle; a first response that is non-2xx without
the conflict signature is surfaced the same way with no purge at all. -/
theorem create_unique_conflict_recovery
    (c c1 c2 : Client) (env : CreateEnv) (db db1 : DBState) (ws ty : String)
    (payload : JObj) (r1 r2 : Resp) (t1 t2 : List Event) (id : String) (st : List SqlStmt)
    (h1 : c.doRequest env.req1 "POST" (c.configURL ws ty) (some (.jobj payload)) =
      (.ok r1, c1, t1)) :
    (storageTable "link" = "ConfigurationObjectLink" ∧
      (¬ ty = "link" → storageTable ty = "ConfigurationObject")) ∧
    (r1.status = 500 → containsSubstr r1.text "Unique constraint failed" = true →
      lookupString payload "id" = some id → ¬ id = "" →
      c1.hardDeleteSoftDeleted env.dbe db id (storageTable ty) = (.ok (), db1, st) →
      c1.doRequest env.req2 "POST" (c.configURL ws ty) (some (.jobj payload)) =
        (.ok r2, c2, t2) →
      (c.create env db ws ty payload).2.2.2 = t1 ++ [.purge id (storageTable ty)] ++ t2 ∧
      ((c.create env db ws ty payload).2.2.2).countP Event.isPurge = 1 ∧
      (r2.status < 200 ∨ 300 ≤ r2.status →
        (c.create env db ws ty payload).1 =
          .error (.apiError "POST" (c.configURL ws ty) r2.status r2.text))) ∧
    (softDeleteConflict r1 = false → r1.status < 200 ∨ 300 ≤ r1.status →
      (c.create env db ws ty payload).1 =
        .error (.apiError "POST" (c.configURL ws ty) r1.status r1.text) ∧
      ((c.create env db ws ty payload).2.2.2).countP Event.isPurge = 0) := by
  refine ⟨⟨rfl, fun h => by simp [storageTable, h]⟩, ?_, ?_⟩
  · intro h500 hsig hid hne hpurge h2
    have hconf : softDeleteConflict r1 = true := by
      simp [softDeleteConflict, h500, hsig]
    have hcr : c.create env db ws ty payload =
        finishCreate (c.configURL ws ty) r2 c2 db1
          (t1 ++ [.purge id (storageTable ty)] ++ t2) := by
      simp [Client.create, h1, hconf, hid, hne, hpurge, h2]
    have hp1 : t1.countP Event.isPurge = 0 := by
      have h := doRequest_countP_purge c env.req1 "POST" (c.configURL ws ty)
        (some (.jobj payload))
      rw [h1] at h
      exact h
    have hp2 : t2.countP Event.isPurge = 0 := by
      have h := doRequest_countP_purge c1 env.req2 "POST" (c.configURL ws ty)
        (some (.jobj payload))
      rw [h2] at h
      exact h
    refine ⟨?_, ?_, ?_⟩
    · rw [hcr, finishCreate_trace]
    · rw [hcr, finishCreate_trace]
      simp [List.countP_append, hp1, hp2, Event.isPurge]
    · intro hbad
      rw [hcr]
      exact finishCreate_bad_status _ _ _ _ _ hbad
  · intro hnc hbad
    have hcr : c.create env db ws ty payload =
        finishCreate (c.configURL ws ty) r1 c1 db t1 := by
      simp [Client.create, h1, hnc]
    have hp1 : t1.countP Event.isPurge = 0 := by
      have h := doRequest_countP_purge c env.req1 "POST" (c.configURL ws ty)
        (some (.jobj payload))
      rw [h1] at h
      exact h
    constructor
    · rw [hcr]
      exact finishCreate_bad_status _ _ _ _ _ hbad
    · rw [hcr, finishCreate_trace]
      exact hp1

theorem create_unique_conflict_recovery_witness :
    ((cW.create envC1 dbW "ws" "stream" payloadC1).2.2.2).countP Event.isPurge = 1 ∧
    (cW.create envC1 dbW "ws" "stream" payloadC1).1 =
      .error (.apiError "POST" (cW.configURL "ws" "stream") 500 respConflict.text) := by
  have h := (create_unique_conflict_recovery cW cW cW envC1 dbW dbWPurged "ws" "stream"
    payloadC1 respConflict respConflict
    [.sendReq "POST" (cW.configURL "ws" "stream") (some (.jobj payloadC1))]
    [.sendReq "POST" (cW.configURL "ws" "stream") (some (.jobj payloadC1))]
    "obj1" [.deleteLinksReferencing "obj1", .deleteById "ConfigurationObject" "obj1"]
    rfl).2.1 rfl rfl rfl (by decide) rfl rfl
  exact ⟨h.2.1, h.2.2 (by decide)⟩

/-- Claim C6: when the workspace POST succeeds but the mandatory
slug-reasserting update fails, a best-effort delete of the new workspace
runs; the outcome carries the original update error together with the
rollback result (success, or the rollback's own error), and state is
never recorded for the workspace. -/
theorem workspace_create_rollback
    (c c1 c2 : Client) (env : WsCreateEnv) (name slug id : String) (e : Err)
    (ta tb : List Event)
    (hc : c.workspaceCreate env.createReq name slug = (.ok id, c1, ta))
    (hupd : c1.workspaceUpdate env.updateReq id name slug = (.error e, c2, tb)) :
    (∀ v c3 t3, c2.workspaceDelete env.deleteReq id = (.ok v, c3, t3) →
      workspaceResourceCreate c env name slug = (.rolledBack e id, c3, ta ++ tb ++ t3)) ∧
    (∀ rb c3 t3, c2.workspaceDelete env.deleteReq id = (.error rb, c3, t3) →
      workspaceResourceCreate c env name slug =
        (.rollbackFailed e id rb, c3, ta ++ tb ++ t3)) ∧
    (∀ i n s, ¬ (workspaceResourceCreate c env name slug).1 = .created i n s) := by
  refine ⟨?_, ?_, ?_⟩
  · intro v c3 t3 hdel
    simp [workspaceResourceCreate, hc, hupd, hdel]
  · intro rb c3 t3 hdel
    simp [workspaceResourceCreate, hc, hupd, hdel]
  · intro i n s
    rcases hdel : c2.workspaceDelete env.deleteReq id with ⟨res3, c3, t3⟩
    cases res3 with
    | ok v => simp [workspaceResourceCreate, hc, hupd, hdel]
    | error rb => simp [workspaceResourceCreate, hc, hupd, hdel]

theorem workspace_create_rollback_witness :
    workspaceResourceCreate cW envWs "n" "s" =
      (.rolledBack errPut "w1", cW,
        [.sendReq "POST" cW.workspaceURL
            (some (.jobj [("name", .jstr "n"), ("slug", .jstr "s")])),
          .sendReq "PUT" (cW.workspaceItemURL "w1")
            (some (.jobj [("name", .jstr "n"), ("slug", .jstr "s")])),
          .sendReq "DELETE" cW.workspaceURL
            (some (.jobj [("workspaceId", .jstr "w1")]))]) :=
  (workspace_create_rollback cW cW cW envWs "n" "s" "w1" errPut _ _ rfl rfl).1 () cW _ rfl

/-- Claim C8 counterexample: with credentials present, a 2xx token fetch
yielding the non-empty token `t`, and no credential-exchange response at
all (the login POST fails at the transport level, so no exchange status
lies outside any range), `authenticate` still fails — none of the
claim's enumerated failure conditions holds at this input. -/
theorem authenticate_failure_conditions_counterexample :
    (Client.authenticate cUn envC8).1 = .error (.loginRequest "connection refused") ∧
    ¬ (cUn.username = "" ∨ cUn.password = "") ∧
    envC8.csrf = .ok goodCsrfResp ∧
    (200 ≤ goodCsrfResp.status ∧ goodCsrfResp.status < 300) ∧
    parseCsrfToken goodCsrfResp.json = some "t" ∧ ¬ "t" = "" ∧
    (∀ lr : Resp, ¬ envC8.login = .ok lr) := by
  refine ⟨rfl, by decide, rfl, by decide, rfl, by decide, ?_⟩
  intro lr hlr
  simp [envC8] at hlr

/-- Claim C8 amended: for a session not already marked authenticated,
`authenticate` succeeds — and marks the session authenticated — exactly
when credentials are present, the token fetch returns a response with a
2xx status whose body parses to a non-empty token, and the credential
exchange returns a response whose status lies in `[200,400)` (any such
status, redirects included, is accepted); it fails in every other case,
including a transport failure of either request and an unparseable token
response. -/
theorem authenticate_success_iff (c : Client) (env : AuthEnv)
    (hna : c.authenticated = false) :
    (∃ c1 t, Client.authenticate c env = (.ok (), c1, t) ∧ c1.authenticated = true) ↔
    (¬ c.username = "" ∧ ¬ c.password = "" ∧
      ∃ r tok lr, env.csrf = .ok r ∧ 200 ≤ r.status ∧ r.status < 300 ∧
        parseCsrfToken r.json = some tok ∧ ¬ tok = "" ∧
        env.login = .ok lr ∧ 200 ≤ lr.status ∧ lr.status < 400) := by
  constructor
  · rintro ⟨c1, t, h, -⟩
    by_cases hu : c.username = ""
    · exfalso
      unfold Client.authenticate at h
      rw [if_pos (Or.inl hu)] at h
      simp at h
    by_cases hp : c.password = ""
    · exfalso
      unfold Client.authenticate at h
      rw [if_pos (Or.inr hp)] at h
      simp at h
    refine ⟨hu, hp, ?_⟩
    unfold Client.authenticate at h
    rw [if_neg (not_or.mpr ⟨hu, hp⟩), if_neg (by simp [hna])] at h
    rcases hcsrf : env.csrf with e | r
    · rw [hcsrf] at h
      simp at h
    rw [hcsrf] at h
    simp only at h
    by_cases hst : r.status < 200 ∨ 300 ≤ r.status
    · rw [if_pos hst] at h
      simp at h
    rw [if_neg hst] at h
    rcases htokc : parseCsrfToken r.json with - | tok
    · rw [htokc] at h
      simp at h
    rw [htokc] at h
    simp only at h
    by_cases htok : tok = ""
    · rw [if_pos htok] at h
      simp at h
    rw [if_neg htok] at h
    rcases hlog : env.login with e | lr
    · rw [hlog] at h
      simp at h
    rw [hlog] at h
    simp only at h
    by_cases hlst : lr.status < 200 ∨ 400 ≤ lr.status
    · rw [if_pos hlst] at h
      simp at h
    exact ⟨r, tok, lr, rfl, by omega, by omega, htokc, htok, rfl, by omega, by omega⟩
  · rintro ⟨hu, hp, r, tok, lr, hcsrf, h1, h2, htokc, htok, hlog, h3, h4⟩
    refine ⟨{ c with authenticated := true }, [.csrfFetch, .loginPost], ?_, rfl⟩
    unfold Client.authenticate
    rw [if_neg (not_or.mpr ⟨hu, hp⟩), if_neg (by simp [hna])]
    simp only [hcsrf]
    rw [if_neg (by omega)]
    simp only [htokc]
    rw [if_neg htok]
    simp only [hlog]
    rw [if_neg (by omega)]

theorem authenticate_success_iff_witness :
    ∃ c1 t, Client.authenticate cUn goodAuthEnv = (.ok (), c1, t) ∧
      c1.authenticated = true :=
  (authenticate_success_iff cUn goodAuthEnv rfl).mpr
    ⟨by decide, by decide, goodCsrfResp, "t", goodLoginResp, rfl, by decide, by decide, rfl,
      by decide, rfl, by decide, by decide⟩

end Jitsu
